import Mathlib

/-!
Verification development for the content-style-transfer-using-RAG repository.

The embedding below translates the frontend code (Next.js / TypeScript) into
Lean definitions: React component state becomes a state type with a step
relation over the events the rendered UI can fire, request bodies become
association lists mirroring the `JSON.stringify` call sites, and the API
route handler becomes a pure function on the parsed request.  Backend
endpoints whose implementation is not part of the frontend sources are
modelled from the specification and are marked as such in their doc
comments.
-/

/-- `ThreadMessage` record, from `src/types/generate.ts` and
`eml-reply/components/types`. -/
structure ThreadMessage where
  message_id : String
  parent_message_id : Option String
  references : List String
  sender : String
  receiver : String
  subject : String
  content : String
  sent_at : String
deriving Repr, DecidableEq

/-- The shape of the `POST api/generate` response decoded by
`GenerateReply.tsx` (interface `GeneratedReplies`). -/
structure GeneratedReplies where
  full_context_reply : String
  thread_only_reply : String
deriving Repr, DecidableEq

/-- Interface `ReplyEvaluation` of `GenerateReply.tsx`: each of the three
scores is `number | null`, modelled as `Option Nat`. -/
structure ReplyEvaluation where
  style_transfer : Option Nat
  content_preservation : Option Nat
  naturalness : Option Nat
deriving Repr, DecidableEq

/-- The all-`null` evaluation used to initialise and reset the two
evaluation states in `GenerateReply.tsx`. -/
def ReplyEvaluation.empty : ReplyEvaluation :=
  { style_transfer := none, content_preservation := none, naturalness := none }

/-- Interface `EvaluationResult` of `GenerateReply.tsx`: one scored variant. -/
structure ScoredVariant where
  reply : String
  style_transfer : Nat
  content_preservation : Nat
  naturalness : Nat
deriving Repr, DecidableEq

/-- Interface `EvaluationResult` of `GenerateReply.tsx`: the exported
evaluation record (`RAG` holds the full-context reply, `noRAG` the
thread-only reply). -/
structure EvaluationResult where
  timestamp : String
  thread_subject : String
  custom_prompt : String
  RAG : ScoredVariant
  noRAG : ScoredVariant
deriving Repr, DecidableEq

/-- The mutable state of the `GenerateReply` component: the
`useState` hooks `customPrompt`, `generatedReplies`, `reply1Eval`,
`reply2Eval` (the `loading` flag does not influence any exported data and
is omitted). -/
structure GenerateReplyState where
  customPrompt : String
  generatedReplies : Option GeneratedReplies
  reply1Eval : ReplyEvaluation
  reply2Eval : ReplyEvaluation
deriving Repr, DecidableEq

/-- Initial component state: empty prompt, no replies, all six scores
`null`. -/
def initialState : GenerateReplyState :=
  { customPrompt := ""
    generatedReplies := none
    reply1Eval := ReplyEvaluation.empty
    reply2Eval := ReplyEvaluation.empty }

/-- `isEvaluationComplete` from `GenerateReply.tsx`: all three scores of a
variant are non-null. -/
def isEvaluationComplete (evalData : ReplyEvaluation) : Bool :=
  evalData.style_transfer.isSome && evalData.content_preservation.isSome &&
    evalData.naturalness.isSome

/-- `canSaveResults` from `GenerateReply.tsx`: both variants fully scored. -/
def canSaveResults (s : GenerateReplyState) : Bool :=
  isEvaluationComplete s.reply1Eval && isEvaluationComplete s.reply2Eval

/-- The three score kinds a rendered scale can set. -/
inductive ScoreField where
  | styleTransfer
  | contentPreservation
  | naturalness
deriving Repr, DecidableEq

/-- The button values the rendered scale offers for each score kind:
`StyleTransferScale` renders buttons `[1,2,3,4,5]`, `BinaryScale` renders
buttons `[0,1]` (`GenerateReply.tsx`). -/
def ScoreField.buttonValues : ScoreField → List Nat
  | .styleTransfer => [1, 2, 3, 4, 5]
  | .contentPreservation => [0, 1]
  | .naturalness => [0, 1]

/-- Reading one score out of a `ReplyEvaluation`. -/
def ReplyEvaluation.get : ReplyEvaluation → ScoreField → Option Nat
  | e, .styleTransfer => e.style_transfer
  | e, .contentPreservation => e.content_preservation
  | e, .naturalness => e.naturalness

/-- The `onChange` handlers of the evaluation panels:
`setEvalData(prev => ({ ...prev, field: val }))`. -/
def ReplyEvaluation.set : ReplyEvaluation → ScoreField → Nat → ReplyEvaluation
  | e, .styleTransfer, v => { e with style_transfer := some v }
  | e, .contentPreservation, v => { e with content_preservation := some v }
  | e, .naturalness, v => { e with naturalness := some v }

/-- The synchronous head of `handleGenerate` (lines 69-73 of
`GenerateReply.tsx`): `setGeneratedReplies(null)` and reset of both
evaluations, executed before the fetch, hence before any new replies can
be shown. -/
def generateStartState (s : GenerateReplyState) : GenerateReplyState :=
  { s with generatedReplies := none
           reply1Eval := ReplyEvaluation.empty
           reply2Eval := ReplyEvaluation.empty }

/-- The success continuation of `handleGenerate`:
`setGeneratedReplies(data)`. -/
def generateSuccessState (s : GenerateReplyState) (data : GeneratedReplies) :
    GenerateReplyState :=
  { s with generatedReplies := some data }

/-- `setCustomPrompt` fired by the prompt textarea. -/
def setCustomPromptState (s : GenerateReplyState) (p : String) : GenerateReplyState :=
  { s with customPrompt := p }

/-- Setting a score on the first evaluation panel. -/
def setScore1State (s : GenerateReplyState) (f : ScoreField) (v : Nat) :
    GenerateReplyState :=
  { s with reply1Eval := s.reply1Eval.set f v }

/-- Setting a score on the second evaluation panel. -/
def setScore2State (s : GenerateReplyState) (f : ScoreField) (v : Nat) :
    GenerateReplyState :=
  { s with reply2Eval := s.reply2Eval.set f v }

/-- One UI event of the `GenerateReply` component.  The evaluation panels
(and hence the score `onChange` handlers) are only rendered inside
`{generatedReplies && ...}`, so a score can only be set while
`generatedReplies` is non-null, and only to one of the rendered button
values. -/
inductive GRStep : GenerateReplyState → GenerateReplyState → Prop
  | setCustomPrompt (s : GenerateReplyState) (p : String) :
      GRStep s (setCustomPromptState s p)
  | generateStart (s : GenerateReplyState) :
      GRStep s (generateStartState s)
  | generateSuccess (s : GenerateReplyState) (data : GeneratedReplies) :
      GRStep s (generateSuccessState s data)
  | setScore1 (s : GenerateReplyState) (f : ScoreField) (v : Nat)
      (hr : s.generatedReplies.isSome = true) (hv : v ∈ f.buttonValues) :
      GRStep s (setScore1State s f v)
  | setScore2 (s : GenerateReplyState) (f : ScoreField) (v : Nat)
      (hr : s.generatedReplies.isSome = true) (hv : v ∈ f.buttonValues) :
      GRStep s (setScore2State s f v)

/-- States the `GenerateReply` component can actually be in: reachable from
the initial state by UI events. -/
inductive GRReachable : GenerateReplyState → Prop
  | init : GRReachable initialState
  | step {s t : GenerateReplyState} : GRReachable s → GRStep s t → GRReachable t

/-- `threadMessages[0]?.subject || 'Unknown Subject'` from `saveResults`. -/
def threadSubjectOf (threadMessages : List ThreadMessage) : String :=
  match threadMessages.head? with
  | none => "Unknown Subject"
  | some m => if m.subject = "" then "Unknown Subject" else m.subject

/-- `saveResults` from `GenerateReply.tsx`: returns the exported
`EvaluationResult` when it is emitted, `none` when the guard
`!generatedReplies || !canSaveResults()` rejects the export (the code then
only alerts and returns, leaving all state untouched).  The wall-clock
`new Date().toISOString()` is passed in as `now`. -/
def saveResults (now : String) (threadMessages : List ThreadMessage)
    (s : GenerateReplyState) : Option EvaluationResult :=
  match s.generatedReplies with
  | none => none
  | some gr =>
    if canSaveResults s then
      some
        { timestamp := now
          thread_subject := threadSubjectOf threadMessages
          custom_prompt := s.customPrompt
          RAG :=
            { reply := gr.full_context_reply
              style_transfer := s.reply1Eval.style_transfer.getD 0
              content_preservation := s.reply1Eval.content_preservation.getD 0
              naturalness := s.reply1Eval.naturalness.getD 0 }
          noRAG :=
            { reply := gr.thread_only_reply
              style_transfer := s.reply2Eval.style_transfer.getD 0
              content_preservation := s.reply2Eval.content_preservation.getD 0
              naturalness := s.reply2Eval.naturalness.getD 0 } }
    else none

/-- The `saveResults` click handler as a state transformer: it produces the
optional record and performs no state update (the TypeScript function calls
no `set*` hook in either branch). -/
def saveResultsHandler (now : String) (threadMessages : List ThreadMessage)
    (s : GenerateReplyState) : Option EvaluationResult × GenerateReplyState :=
  (saveResults now threadMessages s, s)

/-- A JSON-like value, enough to mirror the request bodies the frontend
builds with `JSON.stringify`. -/
inductive JValue where
  | null
  | str (s : String)
  | arr (xs : List JValue)
  | obj (fields : List (String × JValue))

/-- JSON encoding of one `ThreadMessage` as serialised inside the
`thread_messages` array of the generate request. -/
def threadMessageToJValue (m : ThreadMessage) : JValue :=
  .obj
    [("message_id", .str m.message_id),
     ("parent_message_id",
       match m.parent_message_id with
       | none => .null
       | some p => .str p),
     ("references", .arr (m.references.map JValue.str)),
     ("sender", .str m.sender),
     ("receiver", .str m.receiver),
     ("subject", .str m.subject),
     ("content", .str m.content),
     ("sent_at", .str m.sent_at)]

/-- The body of the `POST api/generate` request built by `handleGenerate`
in `GenerateReply.tsx` (lines 85-91), as an ordered field list:
`{sender: myEmail, receiver: selectedRecipient, content: lastMessage.content,
custom_prompt: customPrompt, thread_messages: threadMessages}`. -/
def generateRequestBody (myEmail selectedRecipient lastContent customPrompt : String)
    (threadMessages : List ThreadMessage) : List (String × JValue) :=
  [("sender", .str myEmail),
   ("receiver", .str selectedRecipient),
   ("content", .str lastContent),
   ("custom_prompt", .str customPrompt),
   ("thread_messages", .arr (threadMessages.map threadMessageToJValue))]

/-- The body of the `POST api/generate` request built by
`GeneratePage.handleSubmit` (`src/unnamed/part_003`, the standalone
`app/generate` page): `{sender, receiver, content: incomingMail,
custom_prompt: customPrompt}` — no `thread_messages` field. -/
def generatePageRequestBody (sender receiver incomingMail customPrompt : String) :
    List (String × JValue) :=
  [("sender", .str sender),
   ("receiver", .str receiver),
   ("content", .str incomingMail),
   ("custom_prompt", .str customPrompt)]

/-- `handleGenerate` of `GenerateReply.tsx` as a request builder: with an
empty thread it alerts and returns without fetching (`none`); otherwise it
posts the body whose `content` is the content of
`threadMessages[threadMessages.length - 1]`. -/
def handleGenerateRequest (threadMessages : List ThreadMessage)
    (myEmail selectedRecipient customPrompt : String) :
    Option (List (String × JValue)) :=
  match threadMessages.getLast? with
  | none => none
  | some lastMessage =>
    some (generateRequestBody myEmail selectedRecipient lastMessage.content
      customPrompt threadMessages)

/-- Trimming whitespace from both ends of a character list, as
`String.prototype.trim` does. -/
def trimChars (l : List Char) : List Char :=
  ((l.dropWhile Char.isWhitespace).reverse.dropWhile Char.isWhitespace).reverse

/-- `getBaseSubject` from `eml-reply/page.tsx` (line 281): trim the subject,
then replace one leading case-insensitive `Re:` regex match together with
the whitespace run after it by the empty string.  Implemented over the
character list of the subject. -/
def getBaseSubject (subject : String) : String :=
  let t := trimChars subject.toList
  if (t.take 3).map Char.toLower = ['r', 'e', ':'] then
    String.mk ((t.drop 3).dropWhile Char.isWhitespace)
  else String.mk t

/-- The response produced by the `check-password` API route: body
`{success, message}` plus HTTP status. -/
structure PasswordResponse where
  success : Bool
  message : String
  status : Nat
deriving Repr, DecidableEq

/-- `POST` of `src/app/api/check-password/route.ts`.  `correct` is
`process.env.PASSWORD` (`none` when the variable is unset).  `body` models
the outcome of `await request.json()` followed by the `{ password }`
destructuring: `none` = the body does not parse (the `catch` branch),
`some none` = no `password` field, `some (some p)` = password string `p`;
the falsy check `!password` also rejects the empty string. -/
def checkPasswordPOST (correct : Option String) (body : Option (Option String)) :
    PasswordResponse :=
  match body with
  | none => { success := false, message := "Internal Server Error", status := 500 }
  | some none => { success := false, message := "Password is required", status := 400 }
  | some (some p) =>
    if p = "" then { success := false, message := "Password is required", status := 400 }
    else if correct = some p then
      { success := true, message := "Access granted", status := 200 }
    else { success := false, message := "Incorrect password", status := 401 }

/-- The subject and duplicate-detection key extracted from one raw email
file by the backend parser. -/
structure ParsedEmail where
  key : String
  subject : String
deriving Repr, DecidableEq

/-- Per-file outcome of the upload batch, as reported by the backend and
rendered by `EmailUploader` (`src/unnamed/part_002`): success carries the
parsed subject, failed carries the error reason. -/
inductive FileOutcome where
  | success (subject : String)
  | skipped
  | failed (error : String)
deriving Repr, DecidableEq

/-- Whether an outcome is a success. -/
def FileOutcome.isSuccess : FileOutcome → Bool
  | .success _ => true
  | _ => false

/-- Whether an outcome is a duplicate skip. -/
def FileOutcome.isSkipped : FileOutcome → Bool
  | .skipped => true
  | _ => false

/-- Whether an outcome is a failure. -/
def FileOutcome.isFailed : FileOutcome → Bool
  | .failed _ => true
  | _ => false

/-- The aggregate result of `POST upload-emails` displayed by
`EmailUploader`: `total_files`, `successful`, `skipped`, `failed`, plus the
per-file outcome list. -/
structure UploadSummary where
  total_files : Nat
  successful : Nat
  skipped : Nat
  failed : Nat
  outcomes : List FileOutcome
deriving Repr, DecidableEq

/-- Modelled from the spec: the backend handler of `POST upload-emails` is
not among the frontend sources; §6/§7 specify that each file of the batch
is processed independently — an unparsable file yields a failed outcome
with its error reason, a duplicate (key already in the store) is skipped,
and any other file is ingested and yields a success outcome carrying the
parsed subject.  `parse` abstracts the message parser, `store` is the set
of already-ingested duplicate keys. -/
def processFile {α : Type} (parse : α → Except String ParsedEmail)
    (store : List String) (file : α) : FileOutcome × List String :=
  match parse file with
  | .error e => (.failed e, store)
  | .ok p =>
    if p.key ∈ store then (.skipped, store)
    else (.success p.subject, p.key :: store)

/-- Modelled from the spec: fold `processFile` over the batch, left to
right; a failure records its outcome and moves on to the next file
(§7: ingestion failures are per-item and never abort a batch). -/
def processFiles {α : Type} (parse : α → Except String ParsedEmail) :
    List String → List α → List FileOutcome × List String
  | store, [] => ([], store)
  | store, f :: fs =>
    let r := processFile parse store f
    let rest := processFiles parse r.2 fs
    (r.1 :: rest.1, rest.2)

/-- Modelled from the spec: the response of `POST upload-emails` — the
per-file outcomes together with the aggregate counts shown by
`EmailUploader`. -/
def processBatch {α : Type} (parse : α → Except String ParsedEmail)
    (store : List String) (files : List α) : UploadSummary × List String :=
  let r := processFiles parse store files
  ({ total_files := files.length
     successful := r.1.countP (·.isSuccess)
     skipped := r.1.countP (·.isSkipped)
     failed := r.1.countP (·.isFailed)
     outcomes := r.1 }, r.2)

/-- A stored backend message.  Modelled from the spec (§3): the backend
`Message` record behind the conversation endpoint; `sent_at` is abstracted
to a natural number ordered chronologically. -/
structure StoredMessage where
  message_id : String
  parent_message_id : Option String
  references : List String
  sender : String
  receiver : String
  subject : String
  content : String
  sent_at : Nat
deriving Repr, DecidableEq

/-- The summary record returned by `GET emails/conversation/{a}/{b}`,
with exactly the fields of the frontend `Email` interface
(`src/types/generate.ts`): `message_id`, `subject`, `sender`, `receiver`,
`sent_at`. -/
structure EmailSummary where
  message_id : String
  subject : String
  sender : String
  receiver : String
  sent_at : Nat
deriving Repr, DecidableEq

/-- Projection of a stored message to its conversation summary. -/
def summarize (m : StoredMessage) : EmailSummary :=
  { message_id := m.message_id
    subject := m.subject
    sender := m.sender
    receiver := m.receiver
    sent_at := m.sent_at }

/-- A message is between addresses `a` and `b` in either direction. -/
def betweenPair (a b : String) (m : StoredMessage) : Bool :=
  (m.sender = a && m.receiver = b) || (m.sender = b && m.receiver = a)

/-- Chronological order on stored messages. -/
def sentAtLe (x y : StoredMessage) : Prop :=
  x.sent_at ≤ y.sent_at

instance : DecidableRel sentAtLe :=
  fun x y => inferInstanceAs (Decidable (x.sent_at ≤ y.sent_at))

instance : IsTotal StoredMessage sentAtLe :=
  ⟨fun x y => Nat.le_total x.sent_at y.sent_at⟩

instance : IsTrans StoredMessage sentAtLe :=
  ⟨fun _ _ _ => Nat.le_trans⟩

/-- Modelled from the spec: the backend of `GET emails/conversation/{a}/{b}`
is not among the frontend sources; §3/§6 specify that it returns all
messages between the two addresses in either direction, ordered by
`sent_at` ascending, each reduced to the summary fields of the frontend
`Email` interface. -/
def conversation (store : List StoredMessage) (a b : String) : List EmailSummary :=
  ((store.filter (betweenPair a b)).insertionSort sentAtLe).map summarize

/-- C2 counterexample input: the standalone generate page also posts to
`api/generate`, with only four fields. -/
theorem c2_counterexample :
    (generatePageRequestBody "alice@x.com" "bob@x.com" "hello" "be formal").map
        Prod.fst ≠
      ["sender", "receiver", "content", "custom_prompt", "thread_messages"] := by
  decide

/-- C2 (amended): requests built by the eml-reply `GenerateReply` component
carry exactly the fields `sender`, `receiver`, `content`, `custom_prompt`,
`thread_messages`, in that order, while the standalone generate page's
request to the same endpoint carries only the first four and omits
`thread_messages`. -/
theorem c2_generate_request_fields :
    (∀ myEmail selectedRecipient lastContent customPrompt
        (threadMessages : List ThreadMessage),
        (generateRequestBody myEmail selectedRecipient lastContent customPrompt
            threadMessages).map Prod.fst =
          ["sender", "receiver", "content", "custom_prompt", "thread_messages"]) ∧
    (∀ sender receiver incomingMail customPrompt,
        (generatePageRequestBody sender receiver incomingMail
            customPrompt).map Prod.fst =
          ["sender", "receiver", "content", "custom_prompt"]) := by
  exact ⟨fun _ _ _ _ _ => rfl, fun _ _ _ _ => rfl⟩

/-- C5 counterexample input: a `Fwd:`-prefixed subject does not normalize
to the same thread key as its base subject, because `getBaseSubject` only
strips a leading `Re:`. -/
theorem c5_counterexample :
    getBaseSubject "Fwd: Meeting" ≠ getBaseSubject "Meeting" := by
  decide

/-- C5 (amended): the thread-grouping key strips exactly one leading
case-insensitive `Re:` prefix (with the whitespace after it) from the
trimmed subject, so `"Meeting"` and `"Re: Meeting"` share a key; `Fwd:`
prefixes and stacked `Re: Re:` prefixes are not stripped and internal
whitespace is not collapsed. -/
theorem c5_getBaseSubject_spec :
    getBaseSubject "Re: Meeting" = getBaseSubject "Meeting" ∧
    getBaseSubject "RE: Meeting" = "Meeting" ∧
    getBaseSubject "  Re:Meeting  " = "Meeting" ∧
    getBaseSubject "Fwd: Meeting" = "Fwd: Meeting" ∧
    getBaseSubject "Re: Re: Meeting" = "Re: Meeting" ∧
    getBaseSubject "Project   status" = "Project   status" := by
  decide

/-- C9: `handleGenerate` issues no request for an empty thread, and the
`content` field of any issued request is the content of the last message of
`thread_messages` — the message being replied to. -/
theorem c9_handleGenerate_content :
    (∀ (threadMessages : List ThreadMessage) myEmail selectedRecipient customPrompt,
        threadMessages = [] →
        handleGenerateRequest threadMessages myEmail selectedRecipient
            customPrompt = none) ∧
    (∀ (threadMessages : List ThreadMessage) myEmail selectedRecipient customPrompt
        body,
        handleGenerateRequest threadMessages myEmail selectedRecipient
            customPrompt = some body →
        threadMessages ≠ [] ∧
        ∃ lastMessage, threadMessages.getLast? = some lastMessage ∧
          List.lookup "content" body = some (JValue.str lastMessage.content)) := by
  constructor
  · intro tm _ _ _ h
    subst h
    rfl
  · intro tm myEmail selectedRecipient customPrompt body h
    unfold handleGenerateRequest at h
    cases hl : tm.getLast? with
    | none => rw [hl] at h; cases h
    | some lastMessage =>
      rw [hl] at h
      have hb : body = generateRequestBody myEmail selectedRecipient
          lastMessage.content customPrompt tm := by
        cases h
        rfl
      subst hb
      refine ⟨?_, lastMessage, rfl, ?_⟩
      · intro he
        subst he
        cases hl
      · rfl

/-- Concrete thread message used by witnesses. -/
def wMsg : ThreadMessage :=
  { message_id := "id1"
    parent_message_id := none
    references := []
    sender := "b@x.com"
    receiver := "a@x.com"
    subject := "S"
    content := "hello body"
    sent_at := "2024-01-01" }

/-- Witness for C9 at the empty thread and at a one-message thread. -/
theorem c9_handleGenerate_content_witness :
    handleGenerateRequest [] "a@x.com" "b@x.com" "p" = none ∧
    (([wMsg] : List ThreadMessage) ≠ [] ∧
      ∃ lastMessage, [wMsg].getLast? = some lastMessage ∧
        List.lookup "content"
            ((handleGenerateRequest [wMsg] "a@x.com" "b@x.com" "p").getD []) =
          some (JValue.str lastMessage.content)) := by
  constructor
  · exact c9_handleGenerate_content.1 [] "a@x.com" "b@x.com" "p" rfl
  · exact c9_handleGenerate_content.2 [wMsg] "a@x.com" "b@x.com" "p"
      ((handleGenerateRequest [wMsg] "a@x.com" "b@x.com" "p").getD []) rfl

/-- C10: the password gate grants access (success, 200) exactly for a
parsable body whose non-empty `password` equals the `PASSWORD` environment
variable; a missing or empty password gets 400, a non-matching one 401, an
unparsable body 500, and none of the failure responses grants access. -/
theorem c10_checkPassword_spec :
    ∀ (correct : Option String) (body : Option (Option String)),
      ((checkPasswordPOST correct body).success = true ↔
        ∃ p, body = some (some p) ∧ p ≠ "" ∧ correct = some p) ∧
      ((checkPasswordPOST correct body).success = true →
        (checkPasswordPOST correct body).status = 200) ∧
      (body = none → (checkPasswordPOST correct body).status = 500 ∧
        (checkPasswordPOST correct body).success = false) ∧
      ((body = some none ∨ body = some (some "")) →
        (checkPasswordPOST correct body).status = 400 ∧
        (checkPasswordPOST correct body).success = false) ∧
      (∀ p, body = some (some p) → p ≠ "" → correct ≠ some p →
        (checkPasswordPOST correct body).status = 401 ∧
        (checkPasswordPOST correct body).success = false) := by
  intro correct body
  match body with
  | none =>
    refine ⟨⟨?_, ?_⟩, ?_, ?_, ?_, ?_⟩
    · intro h; cases h
    · rintro ⟨p, hp, _, _⟩; cases hp
    · intro h; cases h
    · intro _; exact ⟨rfl, rfl⟩
    · rintro (h | h) <;> cases h
    · intro p h; cases h
  | some none =>
    refine ⟨⟨?_, ?_⟩, ?_, ?_, ?_, ?_⟩
    · intro h; cases h
    · rintro ⟨p, hp, _, _⟩; cases hp
    · intro h; cases h
    · intro h; cases h
    · intro _; exact ⟨rfl, rfl⟩
    · intro p h; cases h
  | some (some p) =>
    by_cases hp : p = ""
    · subst hp
      refine ⟨⟨?_, ?_⟩, ?_, ?_, ?_, ?_⟩
      · intro h; simp [checkPasswordPOST] at h
      · rintro ⟨q, hq, hne, _⟩
        cases hq
        exact absurd rfl hne
      · intro h; simp [checkPasswordPOST] at h
      · intro h; cases h
      · intro _; exact ⟨rfl, rfl⟩
      · intro q hq hne
        cases hq
        exact absurd rfl hne
    · by_cases hc : correct = some p
      · refine ⟨⟨?_, ?_⟩, ?_, ?_, ?_, ?_⟩
        · intro _; exact ⟨p, rfl, hp, hc⟩
        · intro _; simp [checkPasswordPOST, hp, hc]
        · intro _; simp [checkPasswordPOST, hp, hc]
        · intro h; cases h
        · rintro (h | h)
          · cases h
          · cases h; exact absurd rfl hp
        · intro q hq _ hcq
          cases hq
          exact absurd hc hcq
      · refine ⟨⟨?_, ?_⟩, ?_, ?_, ?_, ?_⟩
        · intro h; simp [checkPasswordPOST, hp, hc] at h
        · rintro ⟨q, hq, _, hcq⟩
          cases hq
          exact absurd hcq hc
        · intro h; simp [checkPasswordPOST, hp, hc] at h
        · intro h; cases h
        · rintro (h | h)
          · cases h
          · cases h; exact absurd rfl hp
        · intro q hq _ _
          cases hq
          simp [checkPasswordPOST, hp, hc]

/-- Witness for C10 at concrete passwords: a match is granted with 200, an
unparsable body gets 500, an empty password 400, a wrong password 401. -/
theorem c10_checkPassword_spec_witness :
    (checkPasswordPOST (some "pw") (some (some "pw"))).success = true ∧
    (checkPasswordPOST (some "pw") (some (some "pw"))).status = 200 ∧
    (checkPasswordPOST (some "pw") none).status = 500 ∧
    (checkPasswordPOST (some "pw") (some (some ""))).status = 400 ∧
    (checkPasswordPOST (some "pw") (some (some "bad"))).status = 401 ∧
    (checkPasswordPOST (some "pw") (some (some "bad"))).success = false := by
  have hok := (c10_checkPassword_spec (some "pw") (some (some "pw"))).1.mpr
    ⟨"pw", rfl, by decide, rfl⟩
  refine ⟨hok, (c10_checkPassword_spec (some "pw") (some (some "pw"))).2.1 hok,
    ((c10_checkPassword_spec (some "pw") none).2.2.1 rfl).1,
    ((c10_checkPassword_spec (some "pw") (some (some ""))).2.2.2.1 (Or.inr rfl)).1,
    ((c10_checkPassword_spec (some "pw") (some (some "bad"))).2.2.2.2 "bad" rfl
      (by decide) (by decide)).1,
    ((c10_checkPassword_spec (some "pw") (some (some "bad"))).2.2.2.2 "bad" rfl
      (by decide) (by decide)).2⟩


/-- The empty evaluation has no score set. -/
theorem replyEvaluation_get_empty (f : ScoreField) :
    ReplyEvaluation.empty.get f = none := by
  cases f <;> rfl

/-- Reading the score that was just set. -/
theorem replyEvaluation_get_set_self (e : ReplyEvaluation) (f : ScoreField)
    (v : Nat) : (e.set f v).get f = some v := by
  cases f <;> rfl

/-- Reading a score other than the one just set. -/
theorem replyEvaluation_get_set_other (e : ReplyEvaluation) (f g : ScoreField)
    (v : Nat) (h : g ≠ f) : (e.set f v).get g = e.get g := by
  cases f <;> cases g <;> simp_all [ReplyEvaluation.set, ReplyEvaluation.get]

/-- Every score that is set in an evaluation is one of the rendered button
values of its scale. -/
def evalScoresOk (e : ReplyEvaluation) : Prop :=
  ∀ f v, e.get f = some v → v ∈ f.buttonValues

/-- The state invariant of the `GenerateReply` component: while no replies
are displayed both evaluations are reset, and every set score came from a
rendered button. -/
def grInvariant (s : GenerateReplyState) : Prop :=
  (s.generatedReplies = none →
    s.reply1Eval = ReplyEvaluation.empty ∧ s.reply2Eval = ReplyEvaluation.empty) ∧
  evalScoresOk s.reply1Eval ∧ evalScoresOk s.reply2Eval

/-- The empty evaluation satisfies the score-range condition. -/
theorem evalScoresOk_empty : evalScoresOk ReplyEvaluation.empty := by
  intro f v h
  rw [replyEvaluation_get_empty] at h
  cases h

/-- Setting a button value preserves the score-range condition. -/
theorem evalScoresOk_set {e : ReplyEvaluation} {f : ScoreField} {v : Nat}
    (he : evalScoresOk e) (hv : v ∈ f.buttonValues) :
    evalScoresOk (e.set f v) := by
  intro g w h
  by_cases hg : g = f
  · subst hg
    rw [replyEvaluation_get_set_self] at h
    cases h
    exact hv
  · rw [replyEvaluation_get_set_other e f g v hg] at h
    exact he g w h

/-- Every reachable component state satisfies the invariant. -/
theorem grInvariant_of_reachable {s : GenerateReplyState} (h : GRReachable s) :
    grInvariant s := by
  induction h with
  | init => exact ⟨fun _ => ⟨rfl, rfl⟩, evalScoresOk_empty, evalScoresOk_empty⟩
  | @step s t hr hstep ih =>
    cases hstep with
    | setCustomPrompt p =>
      exact ⟨fun hn => ih.1 hn, ih.2.1, ih.2.2⟩
    | generateStart =>
      exact ⟨fun _ => ⟨rfl, rfl⟩, evalScoresOk_empty, evalScoresOk_empty⟩
    | generateSuccess data =>
      refine ⟨?_, ih.2.1, ih.2.2⟩
      intro hn
      simp [generateSuccessState] at hn
    | setScore1 f v hsome hv =>
      refine ⟨?_, evalScoresOk_set ih.2.1 hv, ih.2.2⟩
      intro hn
      have hn2 : s.generatedReplies = none := hn
      rw [hn2] at hsome
      cases hsome
    | setScore2 f v hsome hv =>
      refine ⟨?_, ih.2.1, evalScoresOk_set ih.2.2 hv⟩
      intro hn
      have hn2 : s.generatedReplies = none := hn
      rw [hn2] at hsome
      cases hsome

/-- Characterisation of a successful `saveResults` call: the guard passed
and every field of the emitted record is determined by the current state. -/
theorem saveResults_some_spec {now : String} {threadMessages : List ThreadMessage}
    {s : GenerateReplyState} {r : EvaluationResult}
    (h : saveResults now threadMessages s = some r) :
    canSaveResults s = true ∧
    r.timestamp = now ∧
    r.thread_subject = threadSubjectOf threadMessages ∧
    r.custom_prompt = s.customPrompt ∧
    (∃ gr, s.generatedReplies = some gr ∧
      r.RAG.reply = gr.full_context_reply ∧
      r.noRAG.reply = gr.thread_only_reply) ∧
    s.reply1Eval.style_transfer = some r.RAG.style_transfer ∧
    s.reply1Eval.content_preservation = some r.RAG.content_preservation ∧
    s.reply1Eval.naturalness = some r.RAG.naturalness ∧
    s.reply2Eval.style_transfer = some r.noRAG.style_transfer ∧
    s.reply2Eval.content_preservation = some r.noRAG.content_preservation ∧
    s.reply2Eval.naturalness = some r.noRAG.naturalness := by
  unfold saveResults at h
  split at h
  next => cases h
  next gr hg =>
    split at h
    next hc =>
      cases h
      unfold canSaveResults isEvaluationComplete at hc
      simp only [Bool.and_eq_true] at hc
      obtain ⟨⟨⟨h1s, h1c⟩, h1n⟩, ⟨h2s, h2c⟩, h2n⟩ := hc
      refine ⟨?_, rfl, rfl, rfl, ⟨gr, hg, rfl, rfl⟩, ?_, ?_, ?_, ?_, ?_, ?_⟩
      · unfold canSaveResults isEvaluationComplete
        simp only [Bool.and_eq_true]
        exact ⟨⟨⟨h1s, h1c⟩, h1n⟩, ⟨h2s, h2c⟩, h2n⟩
      · cases ho : s.reply1Eval.style_transfer with
        | none => rw [ho] at h1s; cases h1s
        | some v => rfl
      · cases ho : s.reply1Eval.content_preservation with
        | none => rw [ho] at h1c; cases h1c
        | some v => rfl
      · cases ho : s.reply1Eval.naturalness with
        | none => rw [ho] at h1n; cases h1n
        | some v => rfl
      · cases ho : s.reply2Eval.style_transfer with
        | none => rw [ho] at h2s; cases h2s
        | some v => rfl
      · cases ho : s.reply2Eval.content_preservation with
        | none => rw [ho] at h2c; cases h2c
        | some v => rfl
      · cases ho : s.reply2Eval.naturalness with
        | none => rw [ho] at h2n; cases h2n
        | some v => rfl
    next hc => cases h

/-- C1: in every reachable session state, the export succeeds exactly when
all six scores are set (otherwise the code rejects with the
incomplete-evaluation alert and emits nothing), and the save handler leaves
the entered scores and generated replies unchanged. -/
theorem c1_saveResults_iff_complete (now : String)
    (threadMessages : List ThreadMessage) (s : GenerateReplyState)
    (h : GRReachable s) :
    ((saveResults now threadMessages s).isSome = true ↔ canSaveResults s = true) ∧
    (saveResultsHandler now threadMessages s).2 = s := by
  refine ⟨⟨?_, ?_⟩, rfl⟩
  · intro hs
    cases hr : saveResults now threadMessages s with
    | none => rw [hr] at hs; cases hs
    | some r => exact (saveResults_some_spec hr).1
  · intro hc
    have inv := grInvariant_of_reachable h
    cases hg : s.generatedReplies with
    | none =>
      obtain ⟨h1, h2⟩ := inv.1 hg
      rw [canSaveResults, h1, h2] at hc
      cases hc
    | some gr =>
      simp [saveResults, hg, hc]

/-- C3: every exported record carries the timestamp, the thread subject,
the custom prompt, and, for each of the two variants, its reply text
together with the three entered scores. -/
theorem c3_record_contents (now : String) (threadMessages : List ThreadMessage)
    (s : GenerateReplyState) (r : EvaluationResult)
    (h : saveResults now threadMessages s = some r) :
    r.timestamp = now ∧
    r.thread_subject = threadSubjectOf threadMessages ∧
    r.custom_prompt = s.customPrompt ∧
    (∃ gr, s.generatedReplies = some gr ∧
      r.RAG.reply = gr.full_context_reply ∧
      r.noRAG.reply = gr.thread_only_reply) ∧
    s.reply1Eval.style_transfer = some r.RAG.style_transfer ∧
    s.reply1Eval.content_preservation = some r.RAG.content_preservation ∧
    s.reply1Eval.naturalness = some r.RAG.naturalness ∧
    s.reply2Eval.style_transfer = some r.noRAG.style_transfer ∧
    s.reply2Eval.content_preservation = some r.noRAG.content_preservation ∧
    s.reply2Eval.naturalness = some r.noRAG.naturalness :=
  (saveResults_some_spec h).2

/-- Membership in the style scale forces the 1..5 range. -/
theorem mem_styleButtons_bounds {v : Nat}
    (h : v ∈ ScoreField.buttonValues ScoreField.styleTransfer) :
    1 ≤ v ∧ v ≤ 5 := by
  simp [ScoreField.buttonValues] at h
  rcases h with rfl | rfl | rfl | rfl | rfl <;> omega

/-- Membership in a binary scale forces the value to be 0 or 1. -/
theorem mem_binaryButtons_bounds {f : ScoreField} {v : Nat}
    (hf : f ≠ ScoreField.styleTransfer) (h : v ∈ ScoreField.buttonValues f) :
    v = 0 ∨ v = 1 := by
  cases f with
  | styleTransfer => exact absurd rfl hf
  | contentPreservation => simpa [ScoreField.buttonValues] using h
  | naturalness => simpa [ScoreField.buttonValues] using h

/-- C4: in every record exported from a reachable session state, both
style-transfer scores lie in 1..5 and all four binary scores are 0 or 1. -/
theorem c4_exported_scores_in_range (now : String)
    (threadMessages : List ThreadMessage) (s : GenerateReplyState)
    (r : EvaluationResult) (h : GRReachable s)
    (hr : saveResults now threadMessages s = some r) :
    (1 ≤ r.RAG.style_transfer ∧ r.RAG.style_transfer ≤ 5) ∧
    (r.RAG.content_preservation = 0 ∨ r.RAG.content_preservation = 1) ∧
    (r.RAG.naturalness = 0 ∨ r.RAG.naturalness = 1) ∧
    (1 ≤ r.noRAG.style_transfer ∧ r.noRAG.style_transfer ≤ 5) ∧
    (r.noRAG.content_preservation = 0 ∨ r.noRAG.content_preservation = 1) ∧
    (r.noRAG.naturalness = 0 ∨ r.noRAG.naturalness = 1) := by
  have inv := grInvariant_of_reachable h
  have hspec := saveResults_some_spec hr
  obtain ⟨-, -, -, -, -, h1s, h1c, h1n, h2s, h2c, h2n⟩ := hspec
  refine ⟨?_, ?_, ?_, ?_, ?_, ?_⟩
  · exact mem_styleButtons_bounds (inv.2.1 ScoreField.styleTransfer _ h1s)
  · exact mem_binaryButtons_bounds (by decide)
      (inv.2.1 ScoreField.contentPreservation _ h1c)
  · exact mem_binaryButtons_bounds (by decide)
      (inv.2.1 ScoreField.naturalness _ h1n)
  · exact mem_styleButtons_bounds (inv.2.2 ScoreField.styleTransfer _ h2s)
  · exact mem_binaryButtons_bounds (by decide)
      (inv.2.2 ScoreField.contentPreservation _ h2c)
  · exact mem_binaryButtons_bounds (by decide)
      (inv.2.2 ScoreField.naturalness _ h2n)

/-- C8: starting a new generation clears the displayed reply pair and
resets all six scores before any new replies arrive, and the replies of
every exported record are exactly the currently displayed pair — the one
from the most recent generation. -/
theorem c8_generate_resets_evaluations :
    (∀ s : GenerateReplyState,
      (generateStartState s).generatedReplies = none ∧
      (generateStartState s).reply1Eval = ReplyEvaluation.empty ∧
      (generateStartState s).reply2Eval = ReplyEvaluation.empty) ∧
    (∀ (now : String) (threadMessages : List ThreadMessage)
        (s : GenerateReplyState) (r : EvaluationResult),
      saveResults now threadMessages s = some r →
      ∃ gr, s.generatedReplies = some gr ∧
        r.RAG.reply = gr.full_context_reply ∧
        r.noRAG.reply = gr.thread_only_reply) :=
  ⟨fun _ => ⟨rfl, rfl, rfl⟩,
   fun _ _ _ _ h => (saveResults_some_spec h).2.2.2.2.1⟩

/-- Concrete reply pair used by the witnesses. -/
def wReplies : GeneratedReplies :=
  { full_context_reply := "reply with context", thread_only_reply := "reply thread only" }

/-- Witness state: replies just generated, no scores yet. -/
def wState0 : GenerateReplyState := generateSuccessState initialState wReplies

/-- Witness states: the six scores entered one by one. -/
def wState1 : GenerateReplyState := setScore1State wState0 ScoreField.styleTransfer 4

/-- Second score entered. -/
def wState2 : GenerateReplyState := setScore1State wState1 ScoreField.contentPreservation 1

/-- Third score entered. -/
def wState3 : GenerateReplyState := setScore1State wState2 ScoreField.naturalness 0

/-- Fourth score entered. -/
def wState4 : GenerateReplyState := setScore2State wState3 ScoreField.styleTransfer 2

/-- Fifth score entered. -/
def wState5 : GenerateReplyState := setScore2State wState4 ScoreField.contentPreservation 0

/-- Sixth score entered: the evaluation is complete. -/
def wState6 : GenerateReplyState := setScore2State wState5 ScoreField.naturalness 1

/-- The fully scored witness state is reachable by UI events. -/
theorem wState6_reachable : GRReachable wState6 :=
  GRReachable.step
    (GRReachable.step
      (GRReachable.step
        (GRReachable.step
          (GRReachable.step
            (GRReachable.step
              (GRReachable.step GRReachable.init
                (GRStep.generateSuccess initialState wReplies))
              (GRStep.setScore1 wState0 ScoreField.styleTransfer 4 rfl (by decide)))
            (GRStep.setScore1 wState1 ScoreField.contentPreservation 1 rfl (by decide)))
          (GRStep.setScore1 wState2 ScoreField.naturalness 0 rfl (by decide)))
        (GRStep.setScore2 wState3 ScoreField.styleTransfer 2 rfl (by decide)))
      (GRStep.setScore2 wState4 ScoreField.contentPreservation 0 rfl (by decide)))
    (GRStep.setScore2 wState5 ScoreField.naturalness 1 rfl (by decide))

/-- The record `saveResults` emits from the witness state. -/
def wRecord : EvaluationResult :=
  { timestamp := "t0"
    thread_subject := "S"
    custom_prompt := ""
    RAG :=
      { reply := "reply with context"
        style_transfer := 4
        content_preservation := 1
        naturalness := 0 }
    noRAG :=
      { reply := "reply thread only"
        style_transfer := 2
        content_preservation := 0
        naturalness := 1 } }

/-- Witness for C1: the fully scored reachable state exports successfully,
and the handler leaves the state unchanged. -/
theorem c1_saveResults_iff_complete_witness :
    GRReachable wState6 ∧
    (((saveResults "t0" [wMsg] wState6).isSome = true ↔
        canSaveResults wState6 = true) ∧
      (saveResultsHandler "t0" [wMsg] wState6).2 = wState6) :=
  ⟨wState6_reachable,
   c1_saveResults_iff_complete "t0" [wMsg] wState6 wState6_reachable⟩

/-- Witness for C3 at the concrete witness state and its emitted record. -/
theorem c3_record_contents_witness :
    saveResults "t0" [wMsg] wState6 = some wRecord ∧
    wRecord.timestamp = "t0" ∧
    wRecord.thread_subject = threadSubjectOf [wMsg] ∧
    wRecord.custom_prompt = wState6.customPrompt ∧
    wState6.reply1Eval.style_transfer = some wRecord.RAG.style_transfer := by
  have hsave : saveResults "t0" [wMsg] wState6 = some wRecord := by decide
  have h := c3_record_contents "t0" [wMsg] wState6 wRecord hsave
  exact ⟨hsave, h.1, h.2.1, h.2.2.1, h.2.2.2.2.1⟩

/-- Witness for C4 at the concrete witness state and its emitted record. -/
theorem c4_exported_scores_in_range_witness :
    GRReachable wState6 ∧
    saveResults "t0" [wMsg] wState6 = some wRecord ∧
    ((1 ≤ wRecord.RAG.style_transfer ∧ wRecord.RAG.style_transfer ≤ 5) ∧
      (wRecord.RAG.content_preservation = 0 ∨ wRecord.RAG.content_preservation = 1) ∧
      (wRecord.RAG.naturalness = 0 ∨ wRecord.RAG.naturalness = 1) ∧
      (1 ≤ wRecord.noRAG.style_transfer ∧ wRecord.noRAG.style_transfer ≤ 5) ∧
      (wRecord.noRAG.content_preservation = 0 ∨
        wRecord.noRAG.content_preservation = 1) ∧
      (wRecord.noRAG.naturalness = 0 ∨ wRecord.noRAG.naturalness = 1)) := by
  have hsave : saveResults "t0" [wMsg] wState6 = some wRecord := by decide
  exact ⟨wState6_reachable, hsave,
    c4_exported_scores_in_range "t0" [wMsg] wState6 wRecord wState6_reachable hsave⟩

/-- Witness for C8: the witness record's replies are exactly the currently
displayed generated pair. -/
theorem c8_generate_resets_evaluations_witness :
    ∃ gr, wState6.generatedReplies = some gr ∧
      wRecord.RAG.reply = gr.full_context_reply ∧
      wRecord.noRAG.reply = gr.thread_only_reply :=
  c8_generate_resets_evaluations.2 "t0" [wMsg] wState6 wRecord (by decide)

/-- The outcome a single file must receive, determined by its own parse
result: unparsable → failed with that reason; parsable → either skipped as
a duplicate or successful with the parsed subject. -/
def fileOutcomeMatches {α : Type} (parse : α → Except String ParsedEmail)
    (f : α) (o : FileOutcome) : Prop :=
  match parse f with
  | .error e => o = FileOutcome.failed e
  | .ok p => o = FileOutcome.skipped ∨ o = FileOutcome.success p.subject

/-- Every file of a batch gets exactly one outcome of the required shape,
whatever happened to the files before it. -/
theorem processFiles_matches {α : Type} (parse : α → Except String ParsedEmail)
    (store : List String) (files : List α) :
    List.Forall₂ (fileOutcomeMatches parse) files
      (processFiles parse store files).1 := by
  induction files generalizing store with
  | nil => exact List.Forall₂.nil
  | cons f fs ih =>
    simp only [processFiles]
    refine List.Forall₂.cons ?_ (ih _)
    unfold fileOutcomeMatches processFile
    cases hp : parse f with
    | error e => simp [hp]
    | ok p =>
      by_cases hm : p.key ∈ store
      · simp [hp, hm]
      · simp [hp, hm]

/-- Each outcome is counted by exactly one of the three counters. -/
theorem countP_outcomes (l : List FileOutcome) :
    l.countP (·.isSuccess) + l.countP (·.isSkipped) + l.countP (·.isFailed) =
      l.length := by
  induction l with
  | nil => rfl
  | cons o l ih =>
    cases o <;>
      simp [List.countP_cons, FileOutcome.isSuccess, FileOutcome.isSkipped,
        FileOutcome.isFailed] at ih ⊢ <;>
      omega

/-- C6 (spec-modelled backend): `POST upload-emails` reports one outcome
per submitted file — success with the parsed subject, skipped for a
duplicate, or failed with the error reason — with aggregate counts that add
up, and the failure of one file never aborts the processing of the others
(every file of the batch still receives its own outcome). -/
theorem c6_uploadBatch_per_file {α : Type}
    (parse : α → Except String ParsedEmail) (store : List String)
    (files : List α) :
    (processBatch parse store files).1.total_files = files.length ∧
    (processBatch parse store files).1.outcomes.length = files.length ∧
    (processBatch parse store files).1.successful +
        (processBatch parse store files).1.skipped +
        (processBatch parse store files).1.failed = files.length ∧
    List.Forall₂ (fileOutcomeMatches parse) files
      (processBatch parse store files).1.outcomes ∧
    ∀ o ∈ (processBatch parse store files).1.outcomes,
      o.isSuccess = true ∨ o.isSkipped = true ∨ o.isFailed = true := by
  have hf := processFiles_matches parse store files
  have hlen : (processFiles parse store files).1.length = files.length :=
    hf.length_eq.symm
  refine ⟨rfl, hlen, ?_, hf, ?_⟩
  · have := countP_outcomes (processFiles parse store files).1
    simpa [processBatch, hlen] using this
  · intro o _
    cases o with
    | success s => exact Or.inl rfl
    | skipped => exact Or.inr (Or.inl rfl)
    | failed e => exact Or.inr (Or.inr rfl)

/-- Concrete parser used by the C6 witness: one parsable fresh file, one
duplicate of an already-stored key, everything else unparsable. -/
def wParseFn : String → Except String ParsedEmail
  | "good.eml" => .ok { key := "k1", subject := "Hello" }
  | "dup.eml" => .ok { key := "k0", subject := "Old subject" }
  | f => .error ("cannot parse " ++ f)

/-- Witness for C6 on a three-file batch with one failure in the middle:
the counts still cover all three files and the failed outcome is one of the
three kinds. -/
theorem c6_uploadBatch_per_file_witness :
    (processBatch wParseFn ["k0"] ["good.eml", "bad.eml", "dup.eml"]).1.total_files =
        3 ∧
    (processBatch wParseFn ["k0"] ["good.eml", "bad.eml", "dup.eml"]).1.successful +
        (processBatch wParseFn ["k0"] ["good.eml", "bad.eml", "dup.eml"]).1.skipped +
        (processBatch wParseFn ["k0"] ["good.eml", "bad.eml", "dup.eml"]).1.failed =
        3 ∧
    (FileOutcome.isSuccess (FileOutcome.failed "cannot parse bad.eml") = true ∨
      FileOutcome.isSkipped (FileOutcome.failed "cannot parse bad.eml") = true ∨
      FileOutcome.isFailed (FileOutcome.failed "cannot parse bad.eml") = true) := by
  have h := c6_uploadBatch_per_file wParseFn ["k0"] ["good.eml", "bad.eml", "dup.eml"]
  exact ⟨h.1, h.2.2.1,
    h.2.2.2.2 (FileOutcome.failed "cannot parse bad.eml") (by decide)⟩

/-- C7 (spec-modelled backend): the conversation endpoint returns summaries
ordered by `sent_at` ascending, and every returned element is the summary —
exactly the fields `message_id`, `subject`, `sender`, `receiver`, `sent_at`
of the frontend `Email` interface — of a stored message between the two
addresses. -/
theorem c7_conversation_sorted_summary (store : List StoredMessage)
    (a b : String) :
    List.Pairwise (fun x y : EmailSummary => x.sent_at ≤ y.sent_at)
      (conversation store a b) ∧
    ∀ e ∈ conversation store a b,
      ∃ m, m ∈ store ∧ betweenPair a b m = true ∧ e = summarize m := by
  constructor
  · have hs : List.Sorted sentAtLe
        ((store.filter (betweenPair a b)).insertionSort sentAtLe) :=
      List.sorted_insertionSort sentAtLe _
    exact List.pairwise_map.mpr (hs.imp (fun h => h))
  · intro e he
    unfold conversation at he
    obtain ⟨m, hm, heq⟩ := List.mem_map.1 he
    have hm2 : m ∈ store.filter (betweenPair a b) :=
      (List.perm_insertionSort sentAtLe _).subset hm
    have hm3 := List.mem_filter.1 hm2
    exact ⟨m, hm3.1, hm3.2, heq.symm⟩

/-- Witness message for C7: `b → a`, earliest in the conversation. -/
def wStoreMsg1 : StoredMessage :=
  { message_id := "m1"
    parent_message_id := none
    references := []
    sender := "b@x.com"
    receiver := "a@x.com"
    subject := "S1"
    content := "c1"
    sent_at := 10 }

/-- Witness message for C7: `a → b`, later. -/
def wStoreMsg2 : StoredMessage :=
  { message_id := "m2"
    parent_message_id := some "m1"
    references := ["m1"]
    sender := "a@x.com"
    receiver := "b@x.com"
    subject := "S2"
    content := "c2"
    sent_at := 20 }

/-- Witness message for C7: involves a third party, filtered out. -/
def wStoreMsg3 : StoredMessage :=
  { message_id := "m3"
    parent_message_id := none
    references := []
    sender := "a@x.com"
    receiver := "c@x.com"
    subject := "S3"
    content := "c3"
    sent_at := 5 }

/-- Witness store for C7, deliberately out of chronological order. -/
def wStore : List StoredMessage := [wStoreMsg2, wStoreMsg1, wStoreMsg3]

/-- Witness for C7: a concrete returned summary comes from a stored message
between the two addresses. -/
theorem c7_conversation_sorted_summary_witness :
    ∃ m, m ∈ wStore ∧ betweenPair "a@x.com" "b@x.com" m = true ∧
      summarize wStoreMsg1 = summarize m :=
  (c7_conversation_sorted_summary wStore "a@x.com" "b@x.com").2
    (summarize wStoreMsg1) (by decide)
